import Mathlib

/-!
Verification of the pySim serial/virtual-SIM transport stack.

Shallow embedding of the Python sources:
  pySim/transport/serial_base.py    (SerialBase: F/D tables, waiting time, PPS, PPS proposal)
  pySim/transport/virtual_sim.py    (VirtualSim: case-4 GET-RESPONSE fix-up)
  pySim/transport/apdu_helper.py    (ApduHelper: CLA/INS classification)
  pySim/transport/bluetooth_rsap.py (SAP message/parameter codec)
  pySim/transport/serial.py         (SerialSimLink.send_apdu_raw)

Machine integers are modelled as Nat (byte values), exact arithmetic as Rat,
Python exceptions as an explicit error type, and Python statefulness
(the GET-RESPONSE cache, the classifier's table mutation, generator
consumption in the SAP encoder) as explicit state passing.
-/

/-- The Python exceptions that the modelled code can raise. -/
inductive PyErr where
  | protocolError
  | notInitializedError
  | indexError
  | typeError
  | valueError
  | overflowError
  | structError
  | attributeError
  | keyError
deriving DecidableEq

/-! ## serial_base.py : SerialBase -/

/-- `SerialBase.TBL_CLOCKRATECONVERSION` (serial_base.py lines 36-38).
Reserved slots (the Python source holds the string `RFU` there, and any
arithmetic on them raises `TypeError`) are modelled as `none`. -/
def TBL_CLOCKRATECONVERSION : List (Option Nat) :=
  [some 372, some 372, some 558, some 744, some 1116, some 1488, some 1860, none,
   none, some 512, some 768, some 1024, some 1536, some 2048, none, none, none]

/-- `SerialBase.TBL_BITRATEFACTOR` (serial_base.py lines 40-41). -/
def TBL_BITRATEFACTOR : List (Option Nat) :=
  [none, some 1, some 2, some 4, some 8, some 16, some 32, none, some 12, some 20,
   none, none, none, none, none, none]

/-- The mutable fields of a `SerialBase` object that the modelled methods read
or write: clock in Hz, the FI/DI/WI link parameters, the stored ATR
(`None` until `atr_recieved`), and the serial port baud rate. -/
structure SBState where
  clk : Rat
  fi : Nat
  di : Nat
  wi : Nat
  atr : Option (List Nat)
  baud : Int
deriving DecidableEq

/-- `SerialBase._calculate_f` (serial_base.py lines 89-90): `TBL_CLOCKRATECONVERSION[self._fi]`.
`none` stands for the `RFU` entries. -/
def calculate_f (s : SBState) : Option Nat :=
  (TBL_CLOCKRATECONVERSION.get? s.fi).getD none

/-- `SerialBase._calculate_d` (serial_base.py lines 92-93): `TBL_BITRATEFACTOR[self._di]`. -/
def calculate_d (s : SBState) : Option Nat :=
  (TBL_BITRATEFACTOR.get? s.di).getD none

/-- `SerialBase._get_work_etu` (serial_base.py lines 95-96):
`self._calculate_f() / self._clk / self._calculate_d()`, in exact arithmetic. -/
def get_work_etu (s : SBState) : Option Rat := do
  let f ← calculate_f s
  let d ← calculate_d s
  pure ((f : Rat) / s.clk / (d : Rat))

/-- `SerialBase.get_waiting_time` (serial_base.py lines 98-99):
`(960 * self._calculate_d() * self._wi) * self._get_work_etu()`. -/
def get_waiting_time (s : SBState) : Option Rat := do
  let d ← calculate_d s
  let e ← get_work_etu s
  pure ((960 * (d : Rat) * (s.wi : Rat)) * e)

/-- Python's built-in `round`: round half to even, on exact rationals. -/
def pyRound (q : Rat) : Int :=
  let f := ⌊q⌋
  let r := q - (f : Rat)
  if r < 1/2 then f
  else if 1/2 < r then f + 1
  else if Even f then f else f + 1

/-- `SerialBase._calculate_baudrate` (serial_base.py lines 86-87):
`round(self._clk / self._calculate_f() * self._calculate_d())`. -/
def calculate_baudrate (s : SBState) : Option Int := do
  let f ← calculate_f s
  let d ← calculate_d s
  pure (pyRound (s.clk / (f : Rat) * (d : Rat)))

/-- `SerialBase.pps_sent` (serial_base.py lines 110-123): validate `pps[0] == 0xFF`,
take FI/DI from the nibbles of `pps[2]`, recompute and set the baud rate.
A reserved F/D entry makes `_calculate_baudrate` raise `TypeError` in Python. -/
def pps_sent (s : SBState) (pps : List Nat) : Except PyErr SBState :=
  match pps.get? 0 with
  | none => .error .indexError
  | some b0 =>
    if b0 ≠ 0xFF then .error .protocolError
    else
      match pps.get? 2 with
      | none => .error .indexError
      | some fidi =>
        match calculate_baudrate { s with fi := (fidi >>> 4) &&& 0x0F, di := fidi &&& 0x0F } with
        | none => .error .typeError
        | some b => .ok { s with fi := (fidi >>> 4) &&& 0x0F, di := fidi &&& 0x0F, baud := b }

/-- Modelled from the spec: `calculate_checksum_xor` is imported from `pySim.utils`,
which is not among the sources; the spec (section 2, Link Parameters, and section 4.2)
describes it as the XOR checksum of the given bytes. -/
def calculate_checksum_xor (bs : List Nat) : Nat :=
  bs.foldl Nat.xor 0

/-- `SerialBase.get_pps_proposal` (serial_base.py lines 125-132): fail with
`NotInitializedError` if no ATR is stored (Python `if not self._atr` is also
true for an empty byte string), otherwise build
`[0xFF, 0x10, atr[2], xor-checksum of the three]`. -/
def get_pps_proposal (s : SBState) : Except PyErr (List Nat) :=
  match s.atr with
  | none => .error .notInitializedError
  | some a =>
    if a = [] then .error .notInitializedError
    else
      match a.get? 2 with
      | none => .error .indexError
      | some ta1 =>
        .ok ([0xFF, 0x10, ta1] ++ [calculate_checksum_xor [0xFF, 0x10, ta1]])

/-- `VirtualSim.ATR_OFFER_PPS` (virtual_sim.py lines 39-40). -/
def ATR_OFFER_PPS : List Nat :=
  [0x3b, 0x9f, 0x96, 0x80, 0x1f, 0xc6, 0x80, 0x31, 0xe0, 0x73, 0xfe, 0x21, 0x1b,
   0x66, 0xd0, 0x02, 0x21, 0xab, 0x11, 0x18, 0x03, 0x82]

instance {ε α : Type} [DecidableEq ε] [DecidableEq α] : DecidableEq (Except ε α) := fun x y =>
  match x, y with
  | .error a, .error b => decidable_of_iff (a = b) (by simp)
  | .error _, .ok _ => .isFalse (by simp)
  | .ok _, .error _ => .isFalse (by simp)
  | .ok a, .ok b => decidable_of_iff (a = b) (by simp)

/-! ## virtual_sim.py : VirtualSim case-4 GET-RESPONSE fix-up

`handle_apdu_with_get_response_fix` (virtual_sim.py lines 177-214) reads and
writes `self._get_response_cache` and calls the application hook
`self.handle_apdu`; the model passes the cache explicitly and takes the hook
as a function argument, returning the transmitted bytes together with the new
cache.  `SerialBase.SW_LEN = 2`. -/

/-- The body after the cache check (virtual_sim.py lines 194-214): clear the
cache, dispatch to the application, then compare the response length with the
expected length.  `ret_sw` is a Python `bytearray(2)`, so storing
`len(response) - 2` greater than 255 into it raises `ValueError` (the source
mutates the cache before that point; no claim observes the cache after an
exception, so the error carries no state). -/
def handleApduFixCore (handler : List Nat → List Nat) (apdu : List Nat)
    (expectedLen : Nat) : Except PyErr (List Nat × Option (List Nat)) :=
  let response := handler apdu
  let n := response.length
  if n = expectedLen then .ok (response, none)
  else if n < 2 then .ok (response, none)
  else if expectedLen < n then
    if n - 2 ≤ 255 then .ok ([0x61, n - 2], some response) else .error .valueError
  else
    if n - 2 ≤ 255 then .ok ([0x6C, n - 2], some response) else .error .valueError

/-- `VirtualSim.handle_apdu_with_get_response_fix` (virtual_sim.py lines 177-214):
if the cache is set and `apdu[1] == 0xC0` (GET RESPONSE), return the cached
response unchanged; otherwise process the APDU with an empty cache. -/
def handle_apdu_with_get_response_fix (handler : List Nat → List Nat)
    (cache : Option (List Nat)) (apdu : List Nat) (expectedLen : Nat) :
    Except PyErr (List Nat × Option (List Nat)) :=
  match cache with
  | some c =>
    match apdu.get? 1 with
    | none => .error .indexError
    | some ins => if ins = 0xC0 then .ok (c, some c)
                  else handleApduFixCore handler apdu expectedLen
  | none => handleApduFixCore handler apdu expectedLen

/-- `VirtualSim._handle_apdu_with_wxt` (virtual_sim.py lines 113-127) without the
concurrent WXT thread (it only writes NULL bytes between exchanges): forward to
the fix-up and prepend the instruction byte when the response is longer than
2 bytes. -/
def handle_apdu_with_wxt (handler : List Nat → List Nat)
    (cache : Option (List Nat)) (apdu : List Nat) (expectedLen : Nat) :
    Except PyErr (List Nat × Option (List Nat)) :=
  match handle_apdu_with_get_response_fix handler cache apdu expectedLen with
  | .error e => .error e
  | .ok (response, st) =>
    if 2 < response.length then
      match apdu.get? 1 with
      | none => .error .indexError
      | some ins => .ok (ins :: response, st)
    else .ok (response, st)

/-- Sequential dispatch of several (APDU, expected length) pairs through the
fix-up, threading the cache; returns the responses in order and the final cache. -/
def runApdus (handler : List Nat → List Nat) :
    Option (List Nat) → List (List Nat × Nat) →
    Except PyErr (List (List Nat) × Option (List Nat))
  | st, [] => .ok ([], st)
  | st, (a, le) :: rest =>
    match handle_apdu_with_get_response_fix handler st a le with
    | .error e => .error e
    | .ok (r, st2) =>
      match runApdus handler st2 rest with
      | .error e => .error e
      | .ok (rs, stf) => .ok (r :: rs, stf)

/-! ## apdu_helper.py : ApduHelper

`classify_apdu` (apdu_helper.py lines 164-175) walks the profile's class
matches; `rc = ins_case['instructions'].get(ins, default_rc)` aliases the entry
stored in the static table, so `rc['case'] = ins_case['helper'](header)` for a
case-5 entry mutates the shared table.  The model therefore threads the table
store through classification.  The JSON instruction tables
(`pySim.transport.instructions`) are not among the sources; see `initTables`. -/

/-- One `{name, case}` instruction entry of a table. -/
structure ApduEntry where
  name : String
  case : Nat
deriving DecidableEq

/-- Which of the five instruction dictionaries a class match refers to.  The
dictionaries are shared objects in Python (`uicc046` appears in three class
matches of the UICC profile), so class matches hold a reference, not a copy. -/
inductive TableRef where
  | iso7816
  | gsm1111
  | uicc046
  | uicc8ce
  | uicc80
deriving DecidableEq

/-- One element of a profile's `cic_instructions` list: `cla`, `cla_mask`,
the instruction table, and whether the entry carries the
`uicc046_cla_ins_helper` (apdu_helper.py lines 41-149). -/
structure ClassMatch where
  cla : Nat
  claMask : Nat
  table : TableRef
  helper : Bool
deriving DecidableEq

/-- The store of the five (mutable, shared) instruction dictionaries, keyed by
INS. -/
structure Tables where
  iso7816 : List (Nat × ApduEntry)
  gsm1111 : List (Nat × ApduEntry)
  uicc046 : List (Nat × ApduEntry)
  uicc8ce : List (Nat × ApduEntry)
  uicc80 : List (Nat × ApduEntry)
deriving DecidableEq

def getTable (t : Tables) : TableRef → List (Nat × ApduEntry)
  | .iso7816 => t.iso7816
  | .gsm1111 => t.gsm1111
  | .uicc046 => t.uicc046
  | .uicc8ce => t.uicc8ce
  | .uicc80 => t.uicc80

def setTable (t : Tables) : TableRef → List (Nat × ApduEntry) → Tables
  | .iso7816, l => { t with iso7816 := l }
  | .gsm1111, l => { t with gsm1111 := l }
  | .uicc046, l => { t with uicc046 := l }
  | .uicc8ce, l => { t with uicc8ce := l }
  | .uicc80, l => { t with uicc80 := l }

/-- `dict.get(ins, default)` on an instruction dictionary. -/
def lookupIns (tbl : List (Nat × ApduEntry)) (ins : Nat) : Option ApduEntry :=
  (tbl.find? (fun p => p.1 == ins)).map Prod.snd

/-- In-place update of the entry stored under `ins` (the effect of
`rc['case'] = ...` on the aliased dictionary value). -/
def updateIns (tbl : List (Nat × ApduEntry)) (ins : Nat) (e : ApduEntry) :
    List (Nat × ApduEntry) :=
  tbl.map (fun p => if p.1 == ins then (p.1, e) else p)

/-- A 5-byte APDU header `(CLA, INS, P1, P2, P3)`. -/
structure Header where
  cla : Nat
  ins : Nat
  p1 : Nat
  p2 : Nat
  p3 : Nat
deriving DecidableEq

/-- `ApduHelper.uicc046_cla_ins_helper` (apdu_helper.py lines 80-104). -/
def uicc046_cla_ins_helper (h : Header) : Nat :=
  if h.ins = 0x73 then
    if h.p1 = 0x00 then 2
    else if h.p1 &&& 0x07 = 1 ∨ h.p1 &&& 0x07 = 2 ∨ h.p1 &&& 0x07 = 3 then
      if h.p2 = 0x80 ∨ h.p2 >>> 5 = 0 then 3
      else if h.p2 >>> 5 = 5 ∨ h.p2 >>> 5 = 1 then 2
      else 0
    else if h.p1 &&& 0x07 = 4 then 3
    else 0
  else if h.ins = 0x75 then
    if h.p1 &&& 0x04 ≠ 0 then 3 else 2
  else 0

/-- The loop of `ApduHelper.classify_apdu` (apdu_helper.py lines 168-175),
instrumented: besides the `{name, case}` result and the (possibly mutated)
table store it reports which class matches were consulted, i.e. those whose
`(cla & cla_mask) == cla` test succeeded and whose table was therefore looked
up.  A case-5 entry in a class match without a helper would raise `KeyError`
(`ins_case['helper']`). -/
def classifyGo (h : Header) :
    List ClassMatch → Tables → (Except PyErr (ApduEntry × Tables)) × List ClassMatch
  | [], tabs => (.ok (⟨"UNKNOWN", 0⟩, tabs), [])
  | cm :: rest, tabs =>
    if h.cla &&& cm.claMask = cm.cla then
      match lookupIns (getTable tabs cm.table) h.ins with
      | none =>
        let (r, cs) := classifyGo h rest tabs
        (r, cm :: cs)
      | some rc =>
        if rc.case = 5 then
          if cm.helper then
            let c := uicc046_cla_ins_helper h
            let rc2 : ApduEntry := ⟨rc.name, c⟩
            let tabs2 := setTable tabs cm.table (updateIns (getTable tabs cm.table) h.ins rc2)
            if 1 ≤ c ∧ c ≤ 4 then (.ok (rc2, tabs2), [cm])
            else
              let (r, cs) := classifyGo h rest tabs2
              (r, cm :: cs)
          else (.error .keyError, [cm])
        else
          if 1 ≤ rc.case ∧ rc.case ≤ 4 then (.ok (rc, tabs), [cm])
          else
            let (r, cs) := classifyGo h rest tabs
            (r, cm :: cs)
    else classifyGo h rest tabs

/-- `ApduHelper.classify_apdu` (apdu_helper.py lines 164-175): result and
updated table store. -/
def classify_apdu (profile : List ClassMatch) (tabs : Tables) (h : Header) :
    Except PyErr (ApduEntry × Tables) :=
  (classifyGo h profile tabs).1

/-- The class matches consulted by `classify_apdu` (in order). -/
def classifyConsulted (profile : List ClassMatch) (tabs : Tables) (h : Header) :
    List ClassMatch :=
  (classifyGo h profile tabs).2

/-- `osim_iso7816_cic_profile` (apdu_helper.py lines 41-66). -/
def iso7816Profile : List ClassMatch :=
  [⟨0x00, 0xF0, .iso7816, false⟩, ⟨0x80, 0xE0, .iso7816, false⟩,
   ⟨0xB0, 0xF0, .iso7816, false⟩, ⟨0xC0, 0xF0, .iso7816, false⟩]

/-- `osim_gsm1111_cic_profile` (apdu_helper.py lines 68-78). -/
def gsm1111Profile : List ClassMatch :=
  [⟨0xA0, 0xFF, .gsm1111, false⟩]

/-- `osim_uicc_cic_profile` (apdu_helper.py lines 106-149). -/
def uiccProfile : List ClassMatch :=
  [⟨0x80, 0xFF, .uicc80, false⟩,
   ⟨0x00, 0xF0, .uicc046, true⟩, ⟨0x40, 0xF0, .uicc046, true⟩, ⟨0x60, 0xF0, .uicc046, true⟩,
   ⟨0x80, 0xF0, .uicc8ce, false⟩, ⟨0xC0, 0xF0, .uicc8ce, false⟩, ⟨0xE0, 0xF0, .uicc8ce, false⟩]

/-- `osim_uicc_sim_cic_profile` (apdu_helper.py lines 151-155), the default
profile: GSM class matches followed by the UICC ones. -/
def uiccSimProfile : List ClassMatch :=
  gsm1111Profile ++ uiccProfile

/-- Modelled from the spec: the JSON instruction tables
(`pySim.transport.instructions/*.json`, loaded in apdu_helper.py lines 34-39)
are not among the sources.  The spec (sections 4.3 and 8, scenarios 4-5) pins
down only the two case-5 entries of the 0x0X/0x4X/0x6X UICC table, MANAGE
SECURE CHANNEL (INS 0x73) and TRANSACT DATA (INS 0x75), whose case is resolved
by `uicc046_cla_ins_helper`; the other tables are left empty here, and no claim
below depends on their unknown contents. -/
def initTables : Tables :=
  ⟨[], [],
   [(0x73, ⟨"MANAGE SECURE CHANNEL", 5⟩), (0x75, ⟨"TRANSACT DATA", 5⟩)],
   [], []⟩

/-! ## bluetooth_rsap.py : SAP message codec

`craft_sap_message` (bluetooth_rsap.py lines 323-363) builds `allowed_params`
and `mandatory_params` as Python *generators*; the membership test
`param_id not in allowed_params` consumes the generator up to and including the
found element, so the model threads the remaining suffix through the loop.
The final check is literally `if not set(collected_param_ids).issubset(mandatory_params)`. -/

/-- A value passed for a SAP parameter: an int (packed big-endian into the
declared length) or a byte string (a hex string argument is converted to
exactly these bytes by `h2b` first). -/
inductive SapValue where
  | int (n : Nat)
  | bytes (bs : List Nat)
deriving DecidableEq

/-- `SAP_PARAMETERS` (bluetooth_rsap.py lines 62-118): name, declared length
(`None` = variable), id. -/
def SAP_PARAMETERS : List (String × Option Nat × Nat) :=
  [("MaxMsgSize", some 2, 0x00), ("ConnectionStatus", some 1, 0x01),
   ("ResultCode", some 1, 0x02), ("DisconnectionType", some 1, 0x03),
   ("CommandAPDU", none, 0x04), ("ResponseAPDU", none, 0x05),
   ("ATR", none, 0x06), ("CardReaderdStatus", some 1, 0x07),
   ("StatusChange", some 1, 0x08), ("TransportProtocol", some 1, 0x09),
   ("CommandAPDU7816", some 2, 0x10)]

/-- `SAP_MESSAGES` (bluetooth_rsap.py lines 122-251): name, id, parameter list
as `(param_id, mandatory)` in declared order (the `client_to_server` flag is
never read by the codec and is omitted). -/
def SAP_MESSAGES : List (String × Nat × List (Nat × Bool)) :=
  [("CONNECT_REQ", 0x00, [(0x00, true)]),
   ("CONNECT_RESP", 0x01, [(0x01, true), (0x00, false)]),
   ("DISCONNECT_REQ", 0x02, []),
   ("DISCONNECT_RESP", 0x03, []),
   ("DISCONNECT_IND", 0x04, [(0x03, true)]),
   ("TRANSFER_APDU_REQ", 0x05, [(0x04, false), (0x10, false)]),
   ("TRANSFER_APDU_RESP", 0x06, [(0x02, true), (0x05, false)]),
   ("TRANSFER_ATR_REQ", 0x07, []),
   ("TRANSFER_ATR_RESP", 0x08, [(0x02, true), (0x06, false)]),
   ("POWER_SIM_OFF_REQ", 0x09, []),
   ("POWER_SIM_OFF_RESP", 0x0A, [(0x02, true)]),
   ("POWER_SIM_ON_REQ", 0x0B, []),
   ("POWER_SIM_ON_RESP", 0x0C, [(0x02, true)]),
   ("RESET_SIM_REQ", 0x0D, []),
   ("RESET_SIM_RESP", 0x0E, [(0x02, true)]),
   ("TRANSFER_CARD_READER_STATUS_REQ", 0x0F, []),
   ("TRANSFER_CARD_READER_STATUS_RESP", 0x10, [(0x02, true), (0x07, false)]),
   ("STATUS_IND", 0x11, [(0x08, true)]),
   ("ERROR_RESP", 0x12, []),
   ("SET_TRANSPORT_PROTOCOL_REQ", 0x13, [(0x09, true)]),
   ("SET_TRANSPORT_PROTOCOL_RESP", 0x14, [(0x02, true)])]

/-- `BluetoothSapSimLink.calc_padding_len` (bluetooth_rsap.py lines 366-370). -/
def calc_padding_len (length blocksize : Nat) : Nat :=
  let extra := length % blocksize
  if 0 < extra then blocksize - extra else 0

/-- `(n).to_bytes(len, byteorder='big')`, defined when `n < 256 ^ len`
(Python raises `OverflowError` otherwise). -/
def bigEndianBytes (n len : Nat) : List Nat :=
  (List.range len).map (fun i => n / 256 ^ (len - 1 - i) % 256)

/-- `struct.pack(f'!BBH{param_len}s', param_id, 0, param_len, param_value)`
followed by `pad_bytes` (bluetooth_rsap.py lines 372-374, 392-399); `H` raises
`struct.error` for a length above 0xFFFF. -/
def packSapParameter (pid plen : Nat) (pv : List Nat) : Except PyErr (List Nat) :=
  if 0xFFFF < plen then .error .structError
  else .ok (([pid, 0x00, plen / 256 % 256, plen % 256] ++ pv)
            ++ List.replicate (calc_padding_len (4 + pv.length) 4) 0)

/-- `BluetoothSapSimLink.craft_sap_parameter` (bluetooth_rsap.py lines 376-400). -/
def craft_sap_parameter (param_name : String) (param_value : SapValue) :
    Except PyErr (List Nat) :=
  match SAP_PARAMETERS.find? (fun p => p.1 == param_name) with
  | none => .error .attributeError
  | some (_, plenDecl, pid) =>
    match param_value with
    | .int n =>
      match plenDecl with
      | none => .error .typeError
      | some plen =>
        if 256 ^ plen ≤ n then .error .overflowError
        else packSapParameter pid plen (bigEndianBytes n plen)
    | .bytes bs =>
      match plenDecl with
      | none => packSapParameter pid bs.length bs
      | some plen =>
        if plen ≠ bs.length then .error .protocolError
        else packSapParameter pid plen bs

/-- Membership test on a Python generator: consume elements until `x` is found;
return whether it was found together with the unconsumed suffix. -/
def genMember : List Nat → Nat → Bool × List Nat
  | [], _ => (false, [])
  | a :: rest, x => if a = x then (true, rest) else genMember rest x

/-- The parameter loop of `craft_sap_message` (bluetooth_rsap.py lines 346-358):
resolve each name, test it against the remains of the `allowed_params`
generator, encode it, and collect its id. -/
def craftLoop : List (String × SapValue) → List Nat → List Nat → List Nat →
    Except PyErr (List Nat × List Nat)
  | [], _, collected, acc => .ok (acc, collected)
  | (pname, pval) :: rest, allowedGen, collected, acc =>
    match SAP_PARAMETERS.find? (fun p => p.1 == pname) with
    | none => .error .protocolError
    | some (_, _, pid) =>
      match genMember allowedGen pid with
      | (false, _) => .error .protocolError
      | (true, allowedRest) =>
        match craft_sap_parameter pname pval with
        | .error e => .error e
        | .ok pb => craftLoop rest allowedRest (collected ++ [pid]) (acc ++ pb)

/-- `BluetoothSapSimLink.craft_sap_message` (bluetooth_rsap.py lines 323-363).
Note the final check is `set(collected).issubset(mandatory)` as in the source
(not the other way round). -/
def craft_sap_message (msg_name : String) (param_list : List (String × SapValue)) :
    Except PyErr (List Nat) :=
  match SAP_MESSAGES.find? (fun m => m.1 == msg_name) with
  | none => .error .protocolError
  | some (_, mid, mparams) =>
    if 255 < param_list.length then .error .structError
    else
      let header := [mid, param_list.length, 0x00, 0x00]
      let allowed := mparams.map Prod.fst
      let mandatory := (mparams.filter Prod.snd).map Prod.fst
      match craftLoop param_list allowed [] [] with
      | .error e => .error e
      | .ok (body, collected) =>
        if collected.all (· ∈ mandatory) then .ok (header ++ body)
        else .error .protocolError

/-! ## serial.py : SerialSimLink.send_apdu_raw

`send_apdu_raw` (serial.py lines 277-329) alternates between the ack loop and
the receive loop.  The serial line is modelled as a list of read results:
`some b` is a 1-byte read, `none` an empty read (timeout); an exhausted list
also reads empty.  `ord(b)` on an empty read raises `TypeError`. -/

/-- Outcome of the ack loop (serial.py lines 291-303). -/
inductive AckOut where
  | proceed (rest : List (Option Nat))
  | early (sw1 sw2 : Nat) (rest : List (Option Nat))
deriving DecidableEq

/-- The ack loop: wait for the INS procedure byte, skip NULL `0x60`, and on any
other byte try to read SW2 plus a terminating empty read. -/
def ackLoop (ins : Nat) : List (Option Nat) → Except PyErr AckOut
  | [] => .error .typeError
  | none :: _ => .error .typeError
  | some v :: rest =>
    if v = ins then .ok (.proceed rest)
    else if v = 0x60 then ackLoop ins rest
    else
      match rest with
      | [] => .error .protocolError
      | sw2 :: rest2 =>
        match sw2 with
        | none => .error .protocolError
        | some w =>
          match rest2 with
          | [] => .ok (.early v w [])
          | nil :: rest3 =>
            if nil = none then .ok (.early v w rest3) else .error .protocolError

/-- The receive loop (serial.py lines 313-320): while fewer than `toRecv` bytes
are collected, read a byte; with `toRecv == 2` a NULL byte is skipped but an
empty read hits `ord(b'')` and raises `TypeError`; otherwise an empty read
breaks the loop. -/
def recvLoop (toRecv : Int) : List (Option Nat) → List Nat → Except PyErr (List Nat)
  | [], acc =>
    if (acc.length : Int) < toRecv then
      (if toRecv = 2 then .error .typeError else .ok acc)
    else .ok acc
  | none :: _, acc =>
    if (acc.length : Int) < toRecv then
      (if toRecv = 2 then .error .typeError else .ok acc)
    else .ok acc
  | some v :: rest, acc =>
    if (acc.length : Int) < toRecv then
      (if toRecv = 2 ∧ v = 0x60 then recvLoop toRecv rest acc
       else recvLoop toRecv rest (acc ++ [v]))
    else .ok acc

/-- The bytes accumulated by the receive loop at the moment it stops (whether
by exhaustion, break, or the `TypeError` of `ord` on an empty read). -/
def recvCollected (toRecv : Int) : List (Option Nat) → List Nat → List Nat
  | [], acc => acc
  | none :: _, acc => acc
  | some v :: rest, acc =>
    if (acc.length : Int) < toRecv then
      (if toRecv = 2 ∧ v = 0x60 then recvCollected toRecv rest acc
       else recvCollected toRecv rest (acc ++ [v]))
    else acc

/-- The value returned by `send_apdu_raw`: either the `(None, None)` pair or a
`(data, sw)` pair (returned hex-encoded in Python). -/
inductive SendResult where
  | nones
  | pair (data sw : List Nat)
deriving DecidableEq

/-- `SerialSimLink.send_apdu_raw` (serial.py lines 277-329).  `to_recv =
P3 - len(pdu) + 5 + 2` is computed in `Int` as in Python. -/
def send_apdu_raw (pdu : List Nat) (stream : List (Option Nat)) :
    Except PyErr SendResult :=
  match pdu.get? 4, pdu.get? 1 with
  | some dataLen, some ins =>
    (match ackLoop ins stream with
     | .error e => .error e
     | .ok (.early sw1 sw2 _) => .ok (.pair [] [sw1, sw2])
     | .ok (.proceed rest) =>
       let toRecv : Int := (dataLen : Int) - (pdu.length : Int) + 5 + 2
       match recvLoop toRecv rest [] with
       | .error e => .error e
       | .ok data =>
         if data.length < 2 then .ok .nones
         else .ok (.pair (data.take (data.length - 2)) (data.drop (data.length - 2))))
  | _, _ => .error .indexError

/-! ## Theorems -/

/-- Every defined (non-RFU) bit-rate factor is positive. -/
theorem calculate_d_pos (s : SBState) (d : Nat) (hd : calculate_d s = some d) :
    0 < d := by
  unfold calculate_d at hd
  cases hg : TBL_BITRATEFACTOR.get? s.di with
  | none => rw [hg] at hd; simp at hd
  | some o =>
    rw [hg] at hd
    simp only [Option.getD_some] at hd
    subst hd
    have hm : some d ∈ TBL_BITRATEFACTOR := List.get?_mem hg
    have key : ∀ o ∈ TBL_BITRATEFACTOR, 0 < o.getD 1 := by decide
    simpa using key (some d) hm

/-- C2, counterexample: the claimed formula `960 · D[DI] · WI · F[FI] / clk` is
not what `get_waiting_time` returns for every non-reserved state; at
FI=0, DI=2, WI=10, clk=3571200 the code returns 1 s while the formula gives
2 s (the D factor cancels against the work-ETU denominator). -/
theorem C2_claim_counterexample :
    ¬ (∀ (s : SBState) (f d : Nat), calculate_f s = some f → calculate_d s = some d →
        get_waiting_time s = some (960 * (d : Rat) * (s.wi : Rat) * (f : Rat) / s.clk)) := by
  intro hall
  have h := hall ⟨3571200, 0, 2, 10, none, 0⟩ 372 2 (by decide) (by decide)
  have e1 : calculate_d ⟨3571200, 0, 2, 10, none, 0⟩ = some 2 := by decide
  have e2 : calculate_f ⟨3571200, 0, 2, 10, none, 0⟩ = some 372 := by decide
  unfold get_waiting_time get_work_etu at h
  rw [e1, e2] at h
  simp only [Option.some_bind, Option.pure_def, Option.some.injEq] at h
  norm_num at h

/-- C2, amended: for every link-parameter state with non-reserved FI and DI,
`get_waiting_time()` returns exactly `960 · WI · F[FI] / clk` seconds — the
bit-rate factor D cancels between the `960·D·WI` multiplier and the work-ETU
`F/(clk·D)`. -/
theorem C2_get_waiting_time (s : SBState) (f d : Nat)
    (hf : calculate_f s = some f) (hd : calculate_d s = some d) :
    get_waiting_time s = some (960 * (s.wi : Rat) * (f : Rat) / s.clk) := by
  have hdpos : 0 < d := calculate_d_pos s d hd
  have hd0 : (d : Rat) ≠ 0 := Nat.cast_ne_zero.mpr hdpos.ne'
  unfold get_waiting_time get_work_etu
  rw [hf, hd]
  simp only [Option.some_bind, Option.pure_def, Option.some.injEq]
  by_cases hclk : s.clk = 0
  · simp [hclk]
  · field_simp
    ring

/-- Witness for C2 at the default state (FI=0, DI=1, WI=10, clk=3571200). -/
theorem C2_get_waiting_time_witness :
    get_waiting_time ⟨3571200, 0, 1, 10, none, 0⟩ =
      some (960 * ((10 : Nat) : Rat) * ((372 : Nat) : Rat) / (3571200 : Rat)) :=
  C2_get_waiting_time ⟨3571200, 0, 1, 10, none, 0⟩ 372 1 (by decide) (by decide)

/-- C6: for every accepted PPS frame, `pps_sent` takes FI from the high and DI
from the low nibble of `pps[2]` and sets the baud rate to
`round(clk · D[DI] / F[FI])` (Python banker's rounding). -/
theorem C6_pps_sent (s s2 : SBState) (pps : List Nat) (fidi : Nat)
    (hfidi : pps.get? 2 = some fidi)
    (hok : pps_sent s pps = .ok s2) :
    s2.fi = (fidi >>> 4) &&& 0x0F ∧ s2.di = fidi &&& 0x0F ∧
    ∀ f d : Nat, calculate_f s2 = some f → calculate_d s2 = some d →
      s2.baud = pyRound (s.clk * (d : Rat) / (f : Rat)) := by
  unfold pps_sent at hok
  split at hok
  · exact absurd hok (by simp)
  next b0 hb0 =>
    split at hok
    · exact absurd hok (by simp)
    next hbne =>
      split at hok
      · exact absurd hok (by simp)
      next fidi2 hfidi2 =>
        obtain rfl : fidi = fidi2 := by
          rw [hfidi] at hfidi2
          exact Option.some_inj.mp hfidi2
        split at hok
        · exact absurd hok (by simp)
        next b hcb =>
          simp only [Except.ok.injEq] at hok
          subst hok
          refine ⟨rfl, rfl, ?_⟩
          intro f d hf hd
          have hf2 : calculate_f { s with fi := (fidi >>> 4) &&& 0x0F, di := fidi &&& 0x0F } = some f := hf
          have hd2 : calculate_d { s with fi := (fidi >>> 4) &&& 0x0F, di := fidi &&& 0x0F } = some d := hd
          unfold calculate_baudrate at hcb
          rw [hf2, hd2] at hcb
          simp at hcb
          show b = pyRound (s.clk * (d : Rat) / (f : Rat))
          rw [← hcb]
          congr 1
          ring

/-- Witness for C6 at the scenario `pps_sent([FF,10,96,79])` with a 3.842 MHz
clock: FI=9, DI=6, F=512, D=32, baud = round(3842000·32/512) = 240125. -/
theorem C6_pps_sent_witness :
    (⟨3842000, 9, 6, 10, none, 240125⟩ : SBState).fi = (0x96 >>> 4) &&& 0x0F ∧
    (⟨3842000, 9, 6, 10, none, 240125⟩ : SBState).di = 0x96 &&& 0x0F ∧
    (⟨3842000, 9, 6, 10, none, 240125⟩ : SBState).baud =
      pyRound ((3842000 : Rat) * ((32 : Nat) : Rat) / ((512 : Nat) : Rat)) := by
  have hok : pps_sent ⟨3842000, 0, 1, 10, none, 0⟩ [0xFF, 0x10, 0x96, 0x79] =
      .ok ⟨3842000, 9, 6, 10, none, 240125⟩ := by
    unfold pps_sent calculate_baudrate
    have e1 : calculate_f ⟨(3842000 : Rat), 9, 6, 10, none, (0 : Int)⟩ = some 512 := by decide
    have e2 : calculate_d ⟨(3842000 : Rat), 9, 6, 10, none, (0 : Int)⟩ = some 32 := by decide
    norm_num [List.get?]
    rw [show ((0x96 >>> 4) &&& 0x0F : Nat) = 9 from by decide,
        show ((0x96 : Nat) &&& 0x0F : Nat) = 6 from by decide]
    rw [e1, e2]
    simp only [Option.some_bind, Option.pure_def]
    unfold pyRound
    norm_num
  have h := C6_pps_sent ⟨3842000, 0, 1, 10, none, 0⟩ ⟨3842000, 9, 6, 10, none, 240125⟩
    [0xFF, 0x10, 0x96, 0x79] 0x96 (by decide) hok
  exact ⟨h.1, h.2.1, h.2.2 512 32 (by decide) (by decide)⟩

/-- C7: with an ATR captured, `get_pps_proposal()` returns
`[0xFF, 0x10, TA1, XOR checksum of the three]` where TA1 is byte 2 of the
stored ATR; with no ATR captured it fails with `NotInitializedError`. -/
theorem C7_get_pps_proposal (s : SBState) (a : List Nat) (ta1 : Nat)
    (ha : s.atr = some a) (hta : a.get? 2 = some ta1) :
    get_pps_proposal s = .ok [0xFF, 0x10, ta1, calculate_checksum_xor [0xFF, 0x10, ta1]] ∧
    ∀ t : SBState, t.atr = none → get_pps_proposal t = .error .notInitializedError := by
  constructor
  · have hne : ¬ a = [] := by
      intro he
      subst he
      simp [List.get?] at hta
    unfold get_pps_proposal
    simp only [ha]
    rw [if_neg hne, hta]
    rfl
  · intro t ht
    unfold get_pps_proposal
    simp only [ht]

/-- Witness for C7 at the stored ATR `3B 9F 96 ...`: the proposal is
`FF 10 96 79` (`FF^10^96 = 79`), and the ATR-less state fails. -/
theorem C7_get_pps_proposal_witness :
    get_pps_proposal ⟨3842000, 0, 1, 10, some ATR_OFFER_PPS, 0⟩ = .ok [0xFF, 0x10, 0x96, 0x79] ∧
    get_pps_proposal ⟨3842000, 0, 1, 10, none, 0⟩ = .error .notInitializedError := by
  have h := C7_get_pps_proposal ⟨3842000, 0, 1, 10, some ATR_OFFER_PPS, 0⟩ ATR_OFFER_PPS 0x96
    rfl (by decide)
  refine ⟨?_, h.2 ⟨3842000, 0, 1, 10, none, 0⟩ rfl⟩
  rw [h.1]
  decide

set_option maxRecDepth 4000 in
/-- C1, counterexample: the fix-up does not return `[0x61, len(response)-2]`
for *every* over-long handler response — for a 258-byte response (e.g. 256
data bytes plus SW) the assignment `ret_sw[1] = 256` into the `bytearray`
raises `ValueError` instead. -/
theorem C1_claim_counterexample :
    ¬ (∀ (handler : List Nat → List Nat) (apdu : List Nat) (le : Nat),
        2 ≤ (handler apdu).length → le < (handler apdu).length →
        handle_apdu_with_get_response_fix handler none apdu le =
          .ok ([0x61, (handler apdu).length - 2], some (handler apdu))) := by
  intro hall
  have h := hall (fun _ => List.replicate 258 0) [0x00, 0xA4, 0x00, 0x00, 0x00] 2
    (by simp) (by simp)
  have h2 : handle_apdu_with_get_response_fix (fun _ => List.replicate 258 0)
      none [0x00, 0xA4, 0x00, 0x00, 0x00] 2 = .error .valueError := by
    simp [handle_apdu_with_get_response_fix, handleApduFixCore]
  rw [h2] at h
  exact absurd h (by simp)

/-- C1, amended: with the cache empty, for every dispatched APDU whose handler
response has length at least 2, greater than the expected length and at most
257 (so that `len(response) - 2` fits in the status `bytearray`), the fix-up
caches the full response and returns exactly `[0x61, len(response) - 2]`; the
2-byte status passes through `_handle_apdu_with_wxt` unprepended, and a
subsequent GET RESPONSE APDU `00 C0 00 00 08` returns the cached bytes. -/
theorem C1_case4_fixup (handler : List Nat → List Nat) (apdu : List Nat) (le : Nat)
    (r : List Nat) (hr : handler apdu = r) (h2 : 2 ≤ r.length) (hgt : le < r.length)
    (hbound : r.length ≤ 257) :
    handle_apdu_with_get_response_fix handler none apdu le =
      .ok ([0x61, r.length - 2], some r) ∧
    (∀ ins, apdu.get? 1 = some ins →
      handle_apdu_with_wxt handler none apdu le = .ok ([0x61, r.length - 2], some r)) ∧
    handle_apdu_with_get_response_fix handler (some r) [0x00, 0xC0, 0x00, 0x00, 0x08] 10 =
      .ok (r, some r) := by
  have hcore : handleApduFixCore handler apdu le = .ok ([0x61, r.length - 2], some r) := by
    unfold handleApduFixCore
    simp only [hr]
    rw [if_neg (by omega), if_neg (by omega), if_pos hgt, if_pos (by omega)]
  have h1 : handle_apdu_with_get_response_fix handler none apdu le =
      .ok ([0x61, r.length - 2], some r) := hcore
  refine ⟨h1, ?_, ?_⟩
  · intro ins hins
    unfold handle_apdu_with_wxt
    simp only [h1]
    simp
  · simp [handle_apdu_with_get_response_fix, List.get?]

/-- Witness for C1 at the spec scenario: expected length 2, 10-byte handler
response `AA BB ... 90 00`; the card transmits `61 08` and the follow-up
`00 C0 00 00 08` returns the cached 10 bytes. -/
theorem C1_case4_fixup_witness :
    handle_apdu_with_get_response_fix (fun _ => [0xAA, 0xBB, 1, 2, 3, 4, 5, 6, 0x90, 0x00])
      none [0x00, 0xA4, 0x00, 0x00, 0x02] 2 =
      .ok ([0x61, 0x08], some [0xAA, 0xBB, 1, 2, 3, 4, 5, 6, 0x90, 0x00]) ∧
    handle_apdu_with_wxt (fun _ => [0xAA, 0xBB, 1, 2, 3, 4, 5, 6, 0x90, 0x00])
      none [0x00, 0xA4, 0x00, 0x00, 0x02] 2 =
      .ok ([0x61, 0x08], some [0xAA, 0xBB, 1, 2, 3, 4, 5, 6, 0x90, 0x00]) ∧
    handle_apdu_with_get_response_fix (fun _ => [0xAA, 0xBB, 1, 2, 3, 4, 5, 6, 0x90, 0x00])
      (some [0xAA, 0xBB, 1, 2, 3, 4, 5, 6, 0x90, 0x00]) [0x00, 0xC0, 0x00, 0x00, 0x08] 10 =
      .ok ([0xAA, 0xBB, 1, 2, 3, 4, 5, 6, 0x90, 0x00],
           some [0xAA, 0xBB, 1, 2, 3, 4, 5, 6, 0x90, 0x00]) := by
  have h := C1_case4_fixup (fun _ => [0xAA, 0xBB, 1, 2, 3, 4, 5, 6, 0x90, 0x00])
    [0x00, 0xA4, 0x00, 0x00, 0x02] 2 [0xAA, 0xBB, 1, 2, 3, 4, 5, 6, 0x90, 0x00]
    rfl (by decide) (by decide) (by decide)
  exact ⟨h.1, h.2.1 0xA4 (by decide), h.2.2⟩

/-- C8: once a response is cached, every APDU with `INS = 0xC0` returns the
cached bytes and leaves the cache unchanged (hence any number of consecutive
repetitions returns the same bytes), while the first APDU with a different INS
is processed exactly as with an empty cache — the cache is cleared before it
is handled. -/
theorem C8_get_response_idempotent (handler : List Nat → List Nat) (r : List Nat)
    (a b : List Nat) (le le2 : Nat) (i : Nat)
    (ha : a.get? 1 = some 0xC0) (hb : b.get? 1 = some i) (hi : i ≠ 0xC0) :
    handle_apdu_with_get_response_fix handler (some r) a le = .ok (r, some r) ∧
    (∀ k : Nat, runApdus handler (some r) (List.replicate k (a, le)) =
      .ok (List.replicate k r, some r)) ∧
    handle_apdu_with_get_response_fix handler (some r) b le2 =
      handle_apdu_with_get_response_fix handler none b le2 := by
  have h1 : handle_apdu_with_get_response_fix handler (some r) a le = .ok (r, some r) := by
    unfold handle_apdu_with_get_response_fix
    simp only [ha]
    simp
  refine ⟨h1, ?_, ?_⟩
  · intro k
    induction k with
    | zero => simp [runApdus]
    | succ n ih => simp [List.replicate_succ, runApdus, h1, ih]
  · unfold handle_apdu_with_get_response_fix
    simp only [hb]
    rw [if_neg hi]

/-- Witness for C8: a cached 4-byte response is returned unchanged by a GET
RESPONSE, three consecutive GET RESPONSEs return it three times, and a SELECT
(INS 0xA4) is handled exactly as with an empty cache. -/
theorem C8_get_response_idempotent_witness :
    handle_apdu_with_get_response_fix (fun _ => []) (some [0x01, 0x02, 0x90, 0x00])
      [0x00, 0xC0, 0x00, 0x00, 0x02] 4 =
      .ok ([0x01, 0x02, 0x90, 0x00], some [0x01, 0x02, 0x90, 0x00]) ∧
    runApdus (fun _ => []) (some [0x01, 0x02, 0x90, 0x00])
      (List.replicate 3 ([0x00, 0xC0, 0x00, 0x00, 0x02], 4)) =
      .ok (List.replicate 3 [0x01, 0x02, 0x90, 0x00], some [0x01, 0x02, 0x90, 0x00]) ∧
    handle_apdu_with_get_response_fix (fun _ => []) (some [0x01, 0x02, 0x90, 0x00])
      [0x00, 0xA4, 0x00, 0x00, 0x00] 2 =
      handle_apdu_with_get_response_fix (fun _ => []) none [0x00, 0xA4, 0x00, 0x00, 0x00] 2 := by
  have h := C8_get_response_idempotent (fun _ => []) [0x01, 0x02, 0x90, 0x00]
    [0x00, 0xC0, 0x00, 0x00, 0x02] [0x00, 0xA4, 0x00, 0x00, 0x00] 4 2 0xA4
    (by decide) (by decide) (by decide)
  exact ⟨h.1, h.2.1 3, h.2.2⟩

/-- Helper for C3: a matching class entry whose instruction table does not
contain the INS does not stop the scan — `classify_apdu` continues with the
remaining class matches, and the entry is recorded as consulted. -/
theorem classifyGo_cons_skip (h : Header) (cm : ClassMatch) (rest : List ClassMatch)
    (tabs : Tables) (hm : h.cla &&& cm.claMask = cm.cla)
    (habs : lookupIns (getTable tabs cm.table) h.ins = none) :
    classifyGo h (cm :: rest) tabs =
      ((classifyGo h rest tabs).1, cm :: (classifyGo h rest tabs).2) := by
  simp only [classifyGo]
  rw [if_pos hm, habs]

/-- C3, counterexample: it is not true that the first matching class entry
alone decides the result with later entries never consulted.  In the UICC
profile the header `80 75 04 00 08` first matches the `0x80/0xFF` entry, whose
table does not contain INS `0x75`, yet classification goes on to consult the
`0x80/0xF0` entry as well, so the consulted list is not the singleton first
match. -/
theorem C3_claim_counterexample :
    ¬ (∀ (profile : List ClassMatch) (tabs : Tables) (h : Header) (j : Nat) (cm : ClassMatch),
        profile ∈ [iso7816Profile, gsm1111Profile, uiccProfile, uiccSimProfile] →
        profile.get? j = some cm →
        (∀ k cmk, k < j → profile.get? k = some cmk → h.cla &&& cmk.claMask ≠ cmk.cla) →
        h.cla &&& cm.claMask = cm.cla →
        lookupIns (getTable tabs cm.table) h.ins = none →
        classify_apdu profile tabs h = .ok (⟨"UNKNOWN", 0⟩, tabs) ∧
        classifyConsulted profile tabs h = [cm]) := by
  intro hall
  have h := hall uiccProfile initTables ⟨0x80, 0x75, 0x04, 0x00, 0x08⟩ 0
    ⟨0x80, 0xFF, .uicc80, false⟩ (by decide) (by decide)
    (fun k cmk hk _ => absurd hk (Nat.not_lt_zero k)) (by decide) (by decide)
  exact absurd h.2 (by decide)

/-- C3, amended: when the first matching class entry's table lacks the INS the
scan does not stop: the result is that of scanning the remaining class matches
(later matching entries are consulted), and `UNKNOWN`/case 0 is returned only
when no matching entry resolves to a case in 1..4. -/
theorem C3_scan_continues (cm : ClassMatch) (rest : List ClassMatch) (tabs : Tables)
    (h : Header) (hm : h.cla &&& cm.claMask = cm.cla)
    (habs : lookupIns (getTable tabs cm.table) h.ins = none) :
    classify_apdu (cm :: rest) tabs h = classify_apdu rest tabs h ∧
    classifyConsulted (cm :: rest) tabs h = cm :: classifyConsulted rest tabs h := by
  have e := classifyGo_cons_skip h cm rest tabs hm habs
  constructor
  · unfold classify_apdu
    rw [e]
  · unfold classifyConsulted
    rw [e]

/-- Witness for C3 at the `80 75 04 00 08` header under the UICC profile. -/
theorem C3_scan_continues_witness :
    classify_apdu uiccProfile initTables ⟨0x80, 0x75, 0x04, 0x00, 0x08⟩ =
      classify_apdu (uiccProfile.drop 1) initTables ⟨0x80, 0x75, 0x04, 0x00, 0x08⟩ ∧
    classifyConsulted uiccProfile initTables ⟨0x80, 0x75, 0x04, 0x00, 0x08⟩ =
      ⟨0x80, 0xFF, .uicc80, false⟩ ::
        classifyConsulted (uiccProfile.drop 1) initTables ⟨0x80, 0x75, 0x04, 0x00, 0x08⟩ :=
  C3_scan_continues ⟨0x80, 0xFF, .uicc80, false⟩ (uiccProfile.drop 1) initTables
    ⟨0x80, 0x75, 0x04, 0x00, 0x08⟩ (by decide) (by decide)

/-- C4, code-bug evidence: `rc['case'] = ins_case['helper'](header)` writes
through the alias into the shared static table.  On fresh tables the header
`00 75 00 00 08` classifies as case 2 and `00 75 04 00 08` as case 3, but
classifying `00 75 04 00 08` first leaves the TRANSACT DATA entry mutated to
case 3, after which `00 75 00 00 08` classifies as case 3 (the helper is no
longer called), so classification is not a pure function of the header. -/
theorem C4_classifier_mutates_static_tables :
    classify_apdu uiccSimProfile initTables ⟨0x00, 0x75, 0x00, 0x00, 0x08⟩ =
      .ok (⟨"TRANSACT DATA", 2⟩,
        ⟨[], [], [(0x73, ⟨"MANAGE SECURE CHANNEL", 5⟩), (0x75, ⟨"TRANSACT DATA", 2⟩)], [], []⟩) ∧
    classify_apdu uiccSimProfile initTables ⟨0x00, 0x75, 0x04, 0x00, 0x08⟩ =
      .ok (⟨"TRANSACT DATA", 3⟩,
        ⟨[], [], [(0x73, ⟨"MANAGE SECURE CHANNEL", 5⟩), (0x75, ⟨"TRANSACT DATA", 3⟩)], [], []⟩) ∧
    classify_apdu uiccSimProfile
      ⟨[], [], [(0x73, ⟨"MANAGE SECURE CHANNEL", 5⟩), (0x75, ⟨"TRANSACT DATA", 3⟩)], [], []⟩
      ⟨0x00, 0x75, 0x00, 0x00, 0x08⟩ =
      .ok (⟨"TRANSACT DATA", 3⟩,
        ⟨[], [], [(0x73, ⟨"MANAGE SECURE CHANNEL", 5⟩), (0x75, ⟨"TRANSACT DATA", 3⟩)], [], []⟩) ∧
    (⟨[], [], [(0x73, ⟨"MANAGE SECURE CHANNEL", 5⟩), (0x75, ⟨"TRANSACT DATA", 3⟩)], [], []⟩ : Tables)
      ≠ initTables := by
  refine ⟨by decide, by decide, by decide, by decide⟩

/-- C5, code-bug evidence: the encoder's mandatory-parameter validation is
inverted and its generators are single-use.  `CONNECT_REQ` with *no* parameters
encodes successfully (missing mandatory `MaxMsgSize` is not detected, because
`set(collected).issubset(mandatory)` is vacuously true for the empty set),
while `CONNECT_RESP` with its mandatory `ConnectionStatus` plus the allowed
optional `MaxMsgSize` raises `ProtocolError` in either listing order (the
present set is not a subset of the mandatory set; in the reversed order the
consumed `allowed_params` generator already rejects the second parameter). -/
theorem C5_mandatory_check_broken :
    craft_sap_message "CONNECT_REQ" [] = .ok [0x00, 0x00, 0x00, 0x00] ∧
    craft_sap_message "CONNECT_RESP"
      [("ConnectionStatus", .int 0), ("MaxMsgSize", .int 16)] = .error .protocolError ∧
    craft_sap_message "CONNECT_RESP"
      [("MaxMsgSize", .int 16), ("ConnectionStatus", .int 0)] = .error .protocolError := by
  refine ⟨by decide, by decide, by decide⟩

/-- Helper for C9: `to_bytes` produces exactly the requested number of bytes. -/
theorem bigEndianBytes_length (n len : Nat) : (bigEndianBytes n len).length = len := by
  simp [bigEndianBytes]

/-- Helper for C9: every successfully packed parameter (4-byte header, payload,
zero padding) has total length a multiple of 4. -/
theorem packSapParameter_ok_mod4 (pid plen : Nat) (pv : List Nat) (bs : List Nat)
    (hlen : pv.length = plen) (h : packSapParameter pid plen pv = .ok bs) :
    bs.length % 4 = 0 := by
  unfold packSapParameter at h
  by_cases hp : 0xFFFF < plen
  · rw [if_pos hp] at h
    exact absurd h (by simp)
  · rw [if_neg hp] at h
    simp only [Except.ok.injEq] at h
    subst h
    simp only [List.length_append, List.length_replicate, List.length_cons,
      List.length_nil, calc_padding_len, hlen]
    split_ifs with h4 <;> omega

/-- C9: encoding `CONNECT_REQ` with `MaxMsgSize = 0xFFFF` yields exactly the
12 bytes `00 01 00 00 00 00 00 02 FF FF 00 00`, and every byte string
successfully produced by `craft_sap_parameter` has total length a multiple
of 4. -/
theorem C9_connect_req_and_padding :
    craft_sap_message "CONNECT_REQ" [("MaxMsgSize", SapValue.int 0xFFFF)] =
      .ok [0x00, 0x01, 0x00, 0x00, 0x00, 0x00, 0x00, 0x02, 0xFF, 0xFF, 0x00, 0x00] ∧
    ∀ (name : String) (v : SapValue) (bs : List Nat),
      craft_sap_parameter name v = .ok bs → bs.length % 4 = 0 := by
  constructor
  · decide
  · intro name v bs h
    unfold craft_sap_parameter at h
    split at h
    · exact absurd h (by simp)
    next nm plenDecl pid hfind =>
      cases v with
      | int n =>
        cases plenDecl with
        | none => exact absurd h (by simp)
        | some plen =>
          replace h : (if 256 ^ plen ≤ n then Except.error PyErr.overflowError
              else packSapParameter pid plen (bigEndianBytes n plen)) = Except.ok bs := h
          by_cases ho : 256 ^ plen ≤ n
          · rw [if_pos ho] at h
            exact absurd h (by simp)
          · rw [if_neg ho] at h
            exact packSapParameter_ok_mod4 pid plen _ bs (bigEndianBytes_length n plen) h
      | bytes bl =>
        cases plenDecl with
        | none => exact packSapParameter_ok_mod4 pid bl.length bl bs rfl h
        | some plen =>
          replace h : (if plen ≠ bl.length then Except.error PyErr.protocolError
              else packSapParameter pid plen bl) = Except.ok bs := h
          by_cases hne : plen ≠ bl.length
          · rw [if_pos hne] at h
            exact absurd h (by simp)
          · rw [if_neg hne] at h
            exact packSapParameter_ok_mod4 pid plen bl bs (Eq.symm (not_ne_iff.mp hne)) h

/-- Witness for C9: the encoded `MaxMsgSize` parameter is 8 bytes, a multiple
of 4. -/
theorem C9_connect_req_and_padding_witness :
    ([0x00, 0x00, 0x00, 0x02, 0xFF, 0xFF, 0x00, 0x00] : List Nat).length % 4 = 0 :=
  C9_connect_req_and_padding.2 "MaxMsgSize" (SapValue.int 0xFFFF)
    [0x00, 0x00, 0x00, 0x02, 0xFF, 0xFF, 0x00, 0x00] (by decide)

/-- Helper for C10: when `to_recv ≠ 2` the receive loop never reaches the
`ord(b'')` call, so it terminates normally with exactly the collected bytes. -/
theorem recvLoop_eq_collected (toRecv : Int) (hne : toRecv ≠ 2)
    (s : List (Option Nat)) :
    ∀ acc, recvLoop toRecv s acc = .ok (recvCollected toRecv s acc) := by
  induction s with
  | nil => intro acc; simp [recvLoop, recvCollected, hne]
  | cons b rest ih =>
    intro acc
    cases b with
    | none => simp [recvLoop, recvCollected, hne]
    | some v =>
      simp only [recvLoop, recvCollected]
      by_cases hlt : (acc.length : Int) < toRecv
      · rw [if_pos hlt, if_pos hlt]
        by_cases hv : toRecv = 2 ∧ v = 0x60
        · rw [if_pos hv, if_pos hv]
          exact ih acc
        · rw [if_neg hv, if_neg hv]
          exact ih (acc ++ [v])
      · rw [if_neg hlt, if_neg hlt]

/-- C10, counterexample: collecting fewer than 2 bytes in the receive phase
does not always yield `(None, None)` — for a 5-byte pdu with `P3 = 0` the
receive count `to_recv` is 2, and an empty (timed-out) read then hits
`ord(b'')`, raising `TypeError` instead. -/
theorem C10_claim_counterexample :
    ¬ (∀ (pdu : List Nat) (stream rest : List (Option Nat)) (ins dataLen : Nat),
        pdu.get? 1 = some ins → pdu.get? 4 = some dataLen →
        ackLoop ins stream = .ok (.proceed rest) →
        (recvCollected ((dataLen : Int) - (pdu.length : Int) + 5 + 2) rest []).length < 2 →
        send_apdu_raw pdu stream = .ok .nones) := by
  intro hall
  have h := hall [0x00, 0xA4, 0x00, 0x00, 0x00] [some 0xA4, none] [none] 0xA4 0
    (by decide) (by decide) (by decide) (by decide)
  have h2 : send_apdu_raw [0x00, 0xA4, 0x00, 0x00, 0x00] [some 0xA4, none] =
      .error .typeError := by decide
  rw [h2] at h
  exact absurd h (by simp)

/-- C10, amended: if the run reaches the data-plus-status-word receive phase
with `to_recv = P3 - len(pdu) + 7 ≠ 2` and that phase collects fewer than
2 bytes (e.g. the reads time out and return empty), `send_apdu_raw` returns
the pair `(None, None)`; when `to_recv = 2` an empty read instead raises
`TypeError` at `ord(b'')` before the length check. -/
theorem C10_send_apdu_raw (pdu : List Nat) (stream rest : List (Option Nat))
    (ins dataLen : Nat)
    (h1 : pdu.get? 1 = some ins) (h4 : pdu.get? 4 = some dataLen)
    (hack : ackLoop ins stream = .ok (.proceed rest))
    (hne : (dataLen : Int) - (pdu.length : Int) + 5 + 2 ≠ 2)
    (hlen : (recvCollected ((dataLen : Int) - (pdu.length : Int) + 5 + 2) rest []).length < 2) :
    send_apdu_raw pdu stream = .ok .nones := by
  have e := recvLoop_eq_collected ((dataLen : Int) - (pdu.length : Int) + 5 + 2) hne rest []
  simp only [send_apdu_raw, h4, h1, hack, e, if_pos hlen]

/-- Witness for C10: a 5-byte pdu with `P3 = 1` (`to_recv = 3`), an acked INS
and a timed-out receive return `(None, None)`. -/
theorem C10_send_apdu_raw_witness :
    send_apdu_raw [0x00, 0xA4, 0x00, 0x00, 0x01] [some 0xA4, none] = .ok .nones :=
  C10_send_apdu_raw [0x00, 0xA4, 0x00, 0x00, 0x01] [some 0xA4, none] [none] 0xA4 1
    (by decide) (by decide) (by decide) (by decide) (by decide)
